import Mathlib

/-!
Verification of the strava-stats OAuth token lifecycle.

This file gives a shallow embedding of the token-lifecycle code of the
strava-stats Stream Deck plugin:

* `StravaService.getValidAccessToken` (src/services/strava-service.ts,
  lines 90-136),
* the OAuth setup widget `StravaOAuth` — its `onDidReceiveSettings`,
  `onKeyDown` and `exchangeToken` handlers (the unnamed StravaOAuth file),
* the error-classification code of the display widgets `StravaYear`
  (src/actions/strava-year.ts) and `LastActivity`
  (src/actions/last-activity.ts).

External effects are made explicit:

* the Stream Deck global-settings store is passed in as a `GlobalSettings`
  value (the record read by `getGlobalSettings()`), and every
  `setGlobalSettings` call is recorded in a `writes` trace;
* the outcome of a network call to the Strava token endpoint
  (`refreshAccessToken` / `exchangeAuthorizationCode`) is supplied as an
  `Except JsError TokenResponse` oracle, and each call actually made is
  recorded in a `calls` trace together with its arguments;
* `readCount` counts the `getGlobalSettings()` reads a call performs.

JavaScript truthiness of the string-typed settings fields (`null`,
`undefined` and `""` are falsy) is modelled by `truthy` on `Option String`;
a field that is absent or not a string is `none`, matching the
`typeof x === 'string' ? x : null` guards of the source.
-/

/-- Athlete identity as consulted by the code: only the `id` field of the
optional `athlete` object of a token response is ever read (line 160 of the
StravaOAuth file). -/
structure Athlete where
  id : Int
deriving Repr, DecidableEq

/-- The `TokenResponse` interface of src/services/strava-service.ts
(lines 285-292): the body returned by the Strava token endpoint. -/
structure TokenResponse where
  token_type : String
  expires_at : Int
  expires_in : Int
  refresh_token : String
  access_token : String
  athlete : Option Athlete
deriving Repr, DecidableEq

/-- The credential record held in the Stream Deck global settings store.
A `none` in a string field means the key is absent or holds a non-string
value (the source always reads these fields through
`typeof x === 'string'` guards); likewise `expiresAt = none` means absent
or non-numeric, which the source defaults to `0`. -/
structure GlobalSettings where
  clientId : Option String
  clientSecret : Option String
  accessToken : Option String
  refreshToken : Option String
  expiresAt : Option Int
  athleteId : Option Int
deriving Repr, DecidableEq

/-- JavaScript truthiness of a nullable string: `null`/`undefined` and the
empty string are falsy, every other string is truthy. -/
def truthy : Option String → Bool
  | none => false
  | some s => !s.isEmpty

/-- Does the character list starting here begin with `needle`? -/
def matchesAt : List Char → List Char → Bool
  | [], _ => true
  | _ :: _, [] => false
  | a :: as, b :: bs => a == b && matchesAt as bs

/-- Substring search on character lists (JavaScript `String.includes`). -/
def charListHas (needle : List Char) : List Char → Bool
  | [] => needle.isEmpty
  | c :: rest => matchesAt needle (c :: rest) || charListHas needle rest

/-- JavaScript `hay.includes(needle)`. -/
def strIncludes (hay needle : String) : Bool :=
  charListHas needle.toList hay.toList

/-- One call to the token endpoint with `grant_type: "refresh_token"`
(`StravaService.refreshAccessToken`, strava-service.ts lines 68-84),
recording the arguments it was given. -/
structure NetCall where
  clientId : String
  clientSecret : String
  refreshToken : String
deriving Repr, DecidableEq

/-- The shape of a JavaScript error value as probed by the widgets' catch
blocks: `error?.response?.status`, `error?.status`, `error?.message` and
`error?.toString()`. `toStr = none` models an object with no `toString`
method; for a normal `Error`, `toStr` is the `String(error)` rendering. -/
structure JsError where
  responseStatus : Option Int
  status : Option Int
  message : Option String
  toStr : Option String
deriving Repr, DecidableEq

/-- Everything observable about one `getValidAccessToken()` invocation:
its return value, the refresh calls it made, the `setGlobalSettings`
writes it performed, and how many times it read the settings store. -/
structure GetTokenResult where
  result : Option String
  calls : List NetCall
  writes : List GlobalSettings
  readCount : Nat
deriving Repr, DecidableEq

/-- The record written back after a successful refresh
(strava-service.ts lines 124-129): spread of the settings that were read,
with `accessToken`, `refreshToken` and `expiresAt` replaced from the
token response. -/
def applyRefresh (settings : GlobalSettings) (tr : TokenResponse) : GlobalSettings :=
  { settings with
    accessToken := some tr.access_token
    refreshToken := some tr.refresh_token
    expiresAt := some tr.expires_at }

/-- `StravaService.getValidAccessToken` (strava-service.ts lines 90-136).
`store` is the record returned by the single `getGlobalSettings()` read,
`now` is `Math.floor(Date.now() / 1000)`, and `refresh` is the outcome the
token endpoint would give if a refresh call is made. The source's outer
`try`/`catch` turns a failed refresh into a `null` return. -/
def getValidAccessToken (store : GlobalSettings) (now : Int)
    (refresh : Except JsError TokenResponse) : GetTokenResult :=
  let settings := store
  let accessToken := settings.accessToken
  let refreshToken := settings.refreshToken
  let clientId := settings.clientId
  let clientSecret := settings.clientSecret
  let expiresAt : Int := settings.expiresAt.getD 0
  if !truthy accessToken || !truthy refreshToken then
    { result := none, calls := [], writes := [], readCount := 1 }
  else if expiresAt - 300 > now then
    { result := accessToken, calls := [], writes := [], readCount := 1 }
  else if !truthy clientId || !truthy clientSecret then
    { result := none, calls := [], writes := [], readCount := 1 }
  else
    let call : NetCall :=
      { clientId := clientId.getD ""
        clientSecret := clientSecret.getD ""
        refreshToken := refreshToken.getD "" }
    match refresh with
    | Except.error _ =>
        { result := none, calls := [call], writes := [], readCount := 1 }
    | Except.ok tr =>
        { result := some tr.access_token, calls := [call]
          writes := [applyRefresh settings tr], readCount := 1 }

/-- The `is429` probe shared verbatim by the catch blocks of
strava-year.ts (line 158) and last-activity.ts (line 145):
`error?.response?.status === 429 || error?.status === 429 ||
(error?.message && error.message.includes('429')) ||
(error?.toString && error.toString().includes('429'))`. -/
def is429 (error : JsError) : Bool :=
  error.responseStatus == some 429 || error.status == some 429 ||
    (truthy error.message && strIncludes (error.message.getD "") "429") ||
    (error.toStr.isSome && strIncludes (error.toStr.getD "") "429")

/-- Outcome of one `StravaYear.updateYearDisplay` cycle, identified by the
title it writes: `"Setup\nOAuth\nFirst"`, the formatted statistics,
`"Rate\nLimit\nWait 30m"`, or `"Error\nCheck\nToken"`. -/
inductive YearOutcome
  | setupOAuth
  | display
  | rateLimited
  | tokenError
deriving Repr, DecidableEq

/-- `StravaYear.updateYearDisplay` (strava-year.ts lines 59-177), at the
granularity of the claims: token acquisition, then the athlete/stats
fetches (outcome supplied by the `api` oracle), with the catch block's
`is429` classification. The text formatting of the success path is not
modelled beyond the fact that it succeeds. -/
def updateYearDisplay (store : GlobalSettings) (now : Int)
    (refresh : Except JsError TokenResponse)
    (api : Except JsError Unit) : YearOutcome :=
  let accessToken := (getValidAccessToken store now refresh).result
  if !truthy accessToken then
    YearOutcome.setupOAuth
  else
    match api with
    | Except.ok _ => YearOutcome.display
    | Except.error error =>
        if is429 error then YearOutcome.rateLimited else YearOutcome.tokenError

/-- Outcome of one `LastActivity.updateLastActivityDisplay` cycle:
`"Setup\nOAuth\nFirst"`, the formatted activity, `"Rate\nLimit\nWait 30m"`,
or `"Error\nRefresh\nAuth"`. -/
inductive LastOutcome
  | setupOAuth
  | display
  | rateLimited
  | authError
deriving Repr, DecidableEq

/-- `LastActivity.updateLastActivityDisplay` (last-activity.ts lines 51-161),
same granularity as `updateYearDisplay`; the activity fetch and formatting
of the success path are summarised by the `api` oracle. -/
def updateLastActivityDisplay (store : GlobalSettings) (now : Int)
    (refresh : Except JsError TokenResponse)
    (api : Except JsError Unit) : LastOutcome :=
  let accessToken := (getValidAccessToken store now refresh).result
  if !truthy accessToken then
    LastOutcome.setupOAuth
  else
    match api with
    | Except.ok _ => LastOutcome.display
    | Except.error error =>
        if is429 error then LastOutcome.rateLimited else LastOutcome.authError

/-- One call to the token endpoint with `grant_type: "authorization_code"`
(`StravaService.exchangeAuthorizationCode`, strava-service.ts lines 43-59),
recording its arguments. -/
structure ExchangeCall where
  clientId : String
  clientSecret : String
  authCode : String
deriving Repr, DecidableEq

/-- Observable effects of one `StravaOAuth.exchangeToken` run. -/
structure ExchangeResult where
  calls : List ExchangeCall
  writes : List GlobalSettings
deriving Repr, DecidableEq

/-- `StravaOAuth.exchangeToken` (StravaOAuth file, lines 142-198): calls
`exchangeAuthorizationCode`; on success reads the current settings
(`store`) and writes them back with the new credentials merged in; on
failure the catch block only shows an alert — no write happens. -/
def exchangeToken (clientId clientSecret authCode : String)
    (store : GlobalSettings) (exch : Except JsError TokenResponse) : ExchangeResult :=
  match exch with
  | Except.error _ =>
      { calls := [{ clientId, clientSecret, authCode }], writes := [] }
  | Except.ok tr =>
      let currentSettings := store
      { calls := [{ clientId, clientSecret, authCode }]
        writes := [{ currentSettings with
          clientId := some clientId
          clientSecret := some clientSecret
          accessToken := some tr.access_token
          refreshToken := some tr.refresh_token
          expiresAt := some tr.expires_at
          athleteId := tr.athlete.map Athlete.id }] }

/-- Observable effects of one `StravaOAuth.onKeyDown` run on the global
settings store (the per-action `setSettings` UI mirror is not part of the
credential store). -/
structure KeyDownResult where
  calls : List NetCall
  writes : List GlobalSettings
deriving Repr, DecidableEq

/-- `StravaOAuth.onKeyDown` (StravaOAuth file, lines 64-124): force-refresh
on button press. Reads the store; if a refresh token is present and the
`typeof`-guarded `clientId`/`clientSecret`/`refreshToken` are all nonempty,
calls `refreshAccessToken` and on success writes the spread of the read
settings with the three token fields replaced; any thrown error is caught
and produces no write. -/
def onKeyDown (store : GlobalSettings)
    (refresh : Except JsError TokenResponse) : KeyDownResult :=
  let globalSettings := store
  if truthy globalSettings.refreshToken then
    let clientId := globalSettings.clientId.getD ""
    let clientSecret := globalSettings.clientSecret.getD ""
    let refreshToken := globalSettings.refreshToken.getD ""
    if !clientId.isEmpty && !clientSecret.isEmpty && !refreshToken.isEmpty then
      match refresh with
      | Except.error _ =>
          { calls := [{ clientId, clientSecret, refreshToken }], writes := [] }
      | Except.ok tr =>
          { calls := [{ clientId, clientSecret, refreshToken }]
            writes := [applyRefresh globalSettings tr] }
    else
      { calls := [], writes := [] }
  else
    { calls := [], writes := [] }

/-- The action-settings payload delivered to `onDidReceiveSettings` by the
property inspector; only the fields that handler reads. -/
structure OAuthSettingsUI where
  clientId : Option String
  clientSecret : Option String
  authCode : Option String
deriving Repr, DecidableEq

/-- Observable effects of one `StravaOAuth.onDidReceiveSettings` run. -/
structure ReceiveResult where
  exchangeCalls : List ExchangeCall
  writes : List GlobalSettings
deriving Repr, DecidableEq

/-- `StravaOAuth.onDidReceiveSettings` (StravaOAuth file, lines 35-62).
If the UI holds a truthy `clientId` or `clientSecret`, the store is
rewritten with those two raw fields replacing the stored ones (tokens
untouched via the spread). Then, if the trimmed `authCode` is nonempty and
both `typeof`-guarded id and secret are nonempty, the store is re-read
(seeing the write just made, `store1`) and `exchangeToken` runs only when
no access token is stored. -/
def onDidReceiveSettings (ui : OAuthSettingsUI) (store : GlobalSettings)
    (exch : Except JsError TokenResponse) : ReceiveResult :=
  let settings := ui
  let step1 : GlobalSettings × List GlobalSettings :=
    if truthy settings.clientId || truthy settings.clientSecret then
      let globalSettings := store
      let w : GlobalSettings := { globalSettings with
        clientId := settings.clientId
        clientSecret := settings.clientSecret }
      (w, [w])
    else
      (store, [])
  let store1 := step1.1
  let writes1 := step1.2
  let authCode := (settings.authCode.getD "").trim
  let clientId := settings.clientId.getD ""
  let clientSecret := settings.clientSecret.getD ""
  if authCode != "" && !clientId.isEmpty && !clientSecret.isEmpty then
    let globalSettings := store1
    if !truthy globalSettings.accessToken then
      let r := exchangeToken clientId clientSecret authCode store1 exch
      { exchangeCalls := r.calls, writes := writes1 ++ r.writes }
    else
      { exchangeCalls := [], writes := writes1 }
  else
    { exchangeCalls := [], writes := writes1 }

/-- A token response write is "coherent": all three of `accessToken`,
`refreshToken` and `expiresAt` in the written record come from the same
token endpoint response. -/
def tokensFromResponse (w : GlobalSettings) (tr : TokenResponse) : Prop :=
  w.accessToken = some tr.access_token ∧
    w.refreshToken = some tr.refresh_token ∧
    w.expiresAt = some tr.expires_at

/-- The written record carries the token pair of the record it was derived
from, unchanged. -/
def preservesTokens (w g : GlobalSettings) : Prop :=
  w.accessToken = g.accessToken ∧ w.refreshToken = g.refreshToken

/-- Every element of the list satisfies `p` (as an explicit conjunction,
so closed instances of the claims evaluate). -/
def All (p : α → Prop) : List α → Prop
  | [] => True
  | x :: xs => p x ∧ All p xs

/-- Spec-side condition for claim C7: the error carries HTTP status 429,
either as a structured status field (`error.response.status` or
`error.status`) or as the substring `"429"` of its stringified message
(`error.message` or `error.toString()`). -/
def carries429 (error : JsError) : Prop :=
  error.responseStatus = some 429 ∨ error.status = some 429 ∨
    strIncludes (error.message.getD "") "429" = true ∨
    strIncludes (error.toStr.getD "") "429" = true

/-! ## Demo inputs used by the closed witness theorems -/

/-- A fully configured credential record whose token is still fresh at
small clock values (`expiresAt = 1000`). -/
def demoStore : GlobalSettings :=
  { clientId := some "cid", clientSecret := some "sec"
    accessToken := some "storedAccess", refreshToken := some "storedRefresh"
    expiresAt := some 1000, athleteId := none }

/-- A fully configured credential record, used at clock values far past
its `expiresAt = 1000`, so the stored token is stale. -/
def staleStore : GlobalSettings :=
  { clientId := some "cid", clientSecret := some "sec"
    accessToken := some "staleAccess", refreshToken := some "staleRefresh"
    expiresAt := some 1000, athleteId := none }

/-- A fresh token bundle as returned by the Strava token endpoint. -/
def demoResponse : TokenResponse :=
  { token_type := "Bearer", expires_at := 99999, expires_in := 21600
    refresh_token := "newRefresh", access_token := "newAccess"
    athlete := some { id := 42 } }

/-- An upstream 400 rejection as the widgets would observe it. -/
def demoNetError : JsError :=
  { responseStatus := some 400, status := none
    message := some "Request failed with status code 400"
    toStr := some "Error: Request failed with status code 400" }

/-- An upstream HTTP 429 rate-limit rejection. -/
def demo429 : JsError :=
  { responseStatus := some 429, status := some 429
    message := some "Request failed with status code 429"
    toStr := some "Error: Request failed with status code 429" }

/-! ## Claims -/

/-- An absent string field is falsy. -/
theorem truthy_none : truthy none = false := rfl

/-- C1: for every stored expiry value `e` and current time `t`, on a fully
populated credential record, `getValidAccessToken` returns the stored
access token (making no network call) exactly when `e - 300 > t`;
otherwise it places a refresh call carrying the stored `clientId`,
`clientSecret` and `refreshToken`. -/
theorem C1_margin_check (store : GlobalSettings) (now : Int)
    (refresh : Except JsError TokenResponse)
    (hat : truthy store.accessToken = true)
    (hrt : truthy store.refreshToken = true)
    (hcid : truthy store.clientId = true)
    (hcs : truthy store.clientSecret = true) :
    (((getValidAccessToken store now refresh).calls = [] ∧
      (getValidAccessToken store now refresh).result = store.accessToken) ↔
        store.expiresAt.getD 0 - 300 > now) ∧
    (store.expiresAt.getD 0 - 300 > now ∨
      (getValidAccessToken store now refresh).calls =
        [{ clientId := store.clientId.getD ""
           clientSecret := store.clientSecret.getD ""
           refreshToken := store.refreshToken.getD "" }]) := by
  unfold getValidAccessToken
  by_cases hvalid : store.expiresAt.getD 0 - 300 > now
  · simp [hat, hrt, hcid, hcs, hvalid]
  · cases refresh <;> simp [hat, hrt, hcid, hcs, hvalid]

/-- Witness for C1 at a concrete fresh record: `expiresAt = 1000`,
`now = 0`. -/
theorem C1_margin_check_witness :
    truthy demoStore.accessToken = true ∧
    truthy demoStore.refreshToken = true ∧
    truthy demoStore.clientId = true ∧
    truthy demoStore.clientSecret = true ∧
    ((((getValidAccessToken demoStore 0 (Except.error demoNetError)).calls = [] ∧
      (getValidAccessToken demoStore 0 (Except.error demoNetError)).result =
        demoStore.accessToken) ↔
        demoStore.expiresAt.getD 0 - 300 > 0) ∧
    (demoStore.expiresAt.getD 0 - 300 > 0 ∨
      (getValidAccessToken demoStore 0 (Except.error demoNetError)).calls =
        [{ clientId := demoStore.clientId.getD ""
           clientSecret := demoStore.clientSecret.getD ""
           refreshToken := demoStore.refreshToken.getD "" }])) :=
  ⟨by decide, by decide, by decide, by decide,
    C1_margin_check demoStore 0 (Except.error demoNetError)
      (by decide) (by decide) (by decide) (by decide)⟩

/-- C2: when the stored record lacks an access token or a refresh token,
`getValidAccessToken` returns `null`, makes no network call and performs
no store write. -/
theorem C2_missing_token_unauthenticated (store : GlobalSettings) (now : Int)
    (refresh : Except JsError TokenResponse)
    (h : store.accessToken = none ∨ store.refreshToken = none) :
    (getValidAccessToken store now refresh).result = none ∧
    (getValidAccessToken store now refresh).calls = [] ∧
    (getValidAccessToken store now refresh).writes = [] := by
  unfold getValidAccessToken
  rcases h with h | h <;> simp [h, truthy]

/-- Witness for C2: a record with client credentials and a refresh token
but no access token. -/
theorem C2_missing_token_unauthenticated_witness :
    ((GlobalSettings.mk (some "cid") (some "sec") none (some "ref") (some 99999) none).accessToken = none ∨
     (GlobalSettings.mk (some "cid") (some "sec") none (some "ref") (some 99999) none).refreshToken = none) ∧
    ((getValidAccessToken (GlobalSettings.mk (some "cid") (some "sec") none (some "ref") (some 99999) none) 0 (Except.ok demoResponse)).result = none ∧
     (getValidAccessToken (GlobalSettings.mk (some "cid") (some "sec") none (some "ref") (some 99999) none) 0 (Except.ok demoResponse)).calls = [] ∧
     (getValidAccessToken (GlobalSettings.mk (some "cid") (some "sec") none (some "ref") (some 99999) none) 0 (Except.ok demoResponse)).writes = []) :=
  ⟨Or.inl rfl,
    C2_missing_token_unauthenticated _ 0 (Except.ok demoResponse) (Or.inl rfl)⟩

/-- C9: when the authorization-code exchange call fails (e.g. the upstream
rejects an already-consumed code with a 400), `StravaOAuth.exchangeToken`
performs no `setGlobalSettings` write — the credential store is left
untouched — although the exchange call itself was made. -/
theorem C9_failed_exchange_leaves_store (clientId clientSecret authCode : String)
    (store : GlobalSettings) (e : JsError) :
    (exchangeToken clientId clientSecret authCode store (Except.error e)).writes = [] ∧
    (exchangeToken clientId clientSecret authCode store (Except.error e)).calls =
      [{ clientId, clientSecret, authCode }] := by
  simp [exchangeToken]

/-- C10: `getValidAccessToken` writes the store only when a refresh call
was made and succeeded, and then the single write is the read record with
the three token fields replaced; on the still-valid, missing-credential
and failure paths the writes trace is empty. -/
theorem C10_write_only_on_refresh_success (store : GlobalSettings) (now : Int)
    (refresh : Except JsError TokenResponse) :
    (getValidAccessToken store now refresh).writes =
      (if (getValidAccessToken store now refresh).calls.isEmpty then []
       else
         match refresh with
         | Except.ok tr => [applyRefresh store tr]
         | Except.error _ => []) := by
  unfold getValidAccessToken
  cases refresh <;> by_cases h1 : !truthy store.accessToken || !truthy store.refreshToken <;>
    by_cases h2 : store.expiresAt.getD 0 - 300 > now <;>
    by_cases h3 : !truthy store.clientId || !truthy store.clientSecret <;>
    simp [h1, h2, h3]

/-- C8 (counterexample): with a fully configured stale record and a failing
refresh call, `getValidAccessToken` reads the settings store exactly once
and returns `null` — it does not re-read the store before giving up, so a
token written meanwhile by a concurrent winner could never be returned. -/
theorem C8_no_reread_counterexample :
    (getValidAccessToken staleStore 100000 (Except.error demoNetError)).calls ≠ [] ∧
    (getValidAccessToken staleStore 100000 (Except.error demoNetError)).readCount = 1 ∧
    (getValidAccessToken staleStore 100000 (Except.error demoNetError)).result = none := by
  decide

/-- C8 (amended): `getValidAccessToken` performs exactly one settings-store
read per invocation, and when the refresh call fails it returns `null`
(or never attempted a refresh at all) without any further read. -/
theorem C8_single_store_read (store : GlobalSettings) (now : Int) (e : JsError) :
    (getValidAccessToken store now (Except.error e)).readCount = 1 ∧
    ((getValidAccessToken store now (Except.error e)).result = none ∨
      (getValidAccessToken store now (Except.error e)).calls = []) := by
  unfold getValidAccessToken
  by_cases h1 : !truthy store.accessToken || !truthy store.refreshToken <;>
    by_cases h2 : store.expiresAt.getD 0 - 300 > now <;>
    by_cases h3 : !truthy store.clientId || !truthy store.clientSecret <;>
    simp [h1, h2, h3]

/-- Bridge: the widgets' `is429` probe fires exactly on the errors that
carry HTTP status 429 in a structured field or as the substring `"429"`
of their stringified message — the guards `error?.message &&` and
`error?.toString &&` change nothing, since an absent or empty string
cannot contain `"429"`. -/
theorem is429_iff_carries429 (e : JsError) : is429 e = true ↔ carries429 e := by
  obtain ⟨rs, st, m, ts⟩ := e
  unfold is429 carries429
  have h0 : strIncludes "" "429" = false := by decide
  cases m with
  | none =>
    cases ts with
    | none => simp [truthy, h0]
    | some t => simp [truthy, h0, or_assoc]
  | some s =>
    by_cases hs : s.isEmpty = true
    · have hseq : s = "" := (String.isEmpty_iff s).mp hs
      subst hseq
      cases ts with
      | none => simp [truthy, h0]
      | some t => simp [truthy, h0, or_assoc]
    · cases ts with
      | none => simp [truthy, hs, h0, or_assoc]
      | some t => simp [truthy, hs, h0, or_assoc]

/-- C7: an error raised during a widget display update (after a valid
token was obtained) is classified `RateLimited` exactly when it carries
HTTP status 429 — structurally or as a `"429"` substring — in both the
Year widget and the Last Activity widget. -/
theorem C7_rate_limit_classification (store : GlobalSettings) (now : Int)
    (refresh : Except JsError TokenResponse) (e : JsError)
    (h : truthy (getValidAccessToken store now refresh).result = true) :
    (updateYearDisplay store now refresh (Except.error e) =
        YearOutcome.rateLimited ↔ carries429 e) ∧
    (updateLastActivityDisplay store now refresh (Except.error e) =
        LastOutcome.rateLimited ↔ carries429 e) := by
  rw [← is429_iff_carries429]
  unfold updateYearDisplay updateLastActivityDisplay
  by_cases h429 : is429 e = true <;> simp [h, h429]

/-- Witness for C7: a fresh record, and the upstream 429 error shape. -/
theorem C7_rate_limit_classification_witness :
    truthy (getValidAccessToken demoStore 0 (Except.ok demoResponse)).result = true ∧
    ((updateYearDisplay demoStore 0 (Except.ok demoResponse) (Except.error demo429) =
        YearOutcome.rateLimited ↔ carries429 demo429) ∧
    (updateLastActivityDisplay demoStore 0 (Except.ok demoResponse) (Except.error demo429) =
        LastOutcome.rateLimited ↔ carries429 demo429)) :=
  ⟨by decide,
    C7_rate_limit_classification demoStore 0 (Except.ok demoResponse) demo429 (by decide)⟩

/-- C6: if a (truthy) access token is already stored, submitting an
authorization code through `onDidReceiveSettings` triggers no exchange
call — the handler checks the stored access token first. -/
theorem C6_no_second_exchange (ui : OAuthSettingsUI) (store : GlobalSettings)
    (exch : Except JsError TokenResponse)
    (h : truthy store.accessToken = true) :
    (onDidReceiveSettings ui store exch).exchangeCalls = [] := by
  unfold onDidReceiveSettings
  by_cases hb1 : truthy ui.clientId || truthy ui.clientSecret <;>
    by_cases hb2 : ((ui.authCode.getD "").trim != "" &&
      (!(ui.clientId.getD "").isEmpty && !(ui.clientSecret.getD "").isEmpty)) = true <;>
    simp_all [h]

/-- Witness for C6: an auth code resubmitted while `demoStore` already
holds an access token produces no exchange call. -/
theorem C6_no_second_exchange_witness :
    truthy demoStore.accessToken = true ∧
    (onDidReceiveSettings
      { clientId := some "cid", clientSecret := some "sec", authCode := some "CODE123" }
      demoStore (Except.ok demoResponse)).exchangeCalls = [] :=
  ⟨by decide,
    C6_no_second_exchange
      { clientId := some "cid", clientSecret := some "sec", authCode := some "CODE123" }
      demoStore (Except.ok demoResponse) (by decide)⟩

/-- C4 (counterexample): a fully configured but stale record whose refresh
call fails with HTTP 429. The refresh call is made, yet the Year widget
shows the unauthenticated `"Setup\nOAuth\nFirst"` label, not the
`RateLimited` label — `getValidAccessToken` caught the 429 and returned
`null`, so no failure propagated to the widget. -/
theorem C4_refresh_429_counterexample :
    (getValidAccessToken staleStore 100000 (Except.error demo429)).calls ≠ [] ∧
    (getValidAccessToken staleStore 100000 (Except.error demo429)).result = none ∧
    updateYearDisplay staleStore 100000 (Except.error demo429) (Except.ok ()) =
      YearOutcome.setupOAuth ∧
    updateYearDisplay staleStore 100000 (Except.error demo429) (Except.ok ()) ≠
      YearOutcome.rateLimited := by
  decide

/-- C4 (amended): whenever the refresh call inside `getValidAccessToken`
is made and fails — with HTTP 429 or any other error — the error is caught
there and `null` is returned, so the consuming Year widget reports the
unauthenticated setup label, not `RateLimited`. -/
theorem C4_refresh_failure_reports_unauthenticated (store : GlobalSettings)
    (now : Int) (e : JsError) (api : Except JsError Unit)
    (h : (getValidAccessToken store now (Except.error e)).calls ≠ []) :
    (getValidAccessToken store now (Except.error e)).result = none ∧
    updateYearDisplay store now (Except.error e) api = YearOutcome.setupOAuth := by
  have hres : (getValidAccessToken store now (Except.error e)).result = none := by
    unfold getValidAccessToken at h ⊢
    by_cases h1 : !truthy store.accessToken || !truthy store.refreshToken
    · simp [h1]
    · by_cases h2 : store.expiresAt.getD 0 - 300 > now
      · exact absurd (by simp [h1, h2]) h
      · by_cases h3 : !truthy store.clientId || !truthy store.clientSecret <;>
          simp [h1, h2, h3]
  refine ⟨hres, ?_⟩
  unfold updateYearDisplay
  simp [hres, truthy]

/-- Witness for C4 (amended), at the concrete stale record and 429
rejection of the counterexample. -/
theorem C4_refresh_failure_reports_unauthenticated_witness :
    (getValidAccessToken staleStore 100000 (Except.error demo429)).calls ≠ [] ∧
    ((getValidAccessToken staleStore 100000 (Except.error demo429)).result = none ∧
     updateYearDisplay staleStore 100000 (Except.error demo429) (Except.ok ()) =
       YearOutcome.setupOAuth) :=
  ⟨by decide,
    C4_refresh_failure_reports_unauthenticated staleStore 100000 demo429
      (Except.ok ()) (by decide)⟩

/-- C5 (counterexample): `clientId` is absent, yet with a still-fresh
expiry (`expiresAt = 1000`, `now = 0`) `getValidAccessToken` returns the
stored access token, not the absent result — refuting "returns the
unauthenticated absent result for every stored expiry value and current
time". -/
theorem C5_missing_client_counterexample :
    (GlobalSettings.mk none (some "sec") (some "tok") (some "ref") (some 1000) none).clientId
      = none ∧
    (getValidAccessToken
      (GlobalSettings.mk none (some "sec") (some "tok") (some "ref") (some 1000) none)
      0 (Except.error demoNetError)).result = some "tok" := by
  decide

/-- C5 (amended): when `clientId` or `clientSecret` is absent,
`getValidAccessToken` never makes a network call and never writes the
store; it returns the stored access token when both tokens are present and
`expiresAt - 300 > now`, and the absent result otherwise. -/
theorem C5_missing_client_no_network (store : GlobalSettings) (now : Int)
    (refresh : Except JsError TokenResponse)
    (h : store.clientId = none ∨ store.clientSecret = none) :
    (getValidAccessToken store now refresh).calls = [] ∧
    (getValidAccessToken store now refresh).writes = [] ∧
    (getValidAccessToken store now refresh).result =
      (if truthy store.accessToken = true ∧ truthy store.refreshToken = true ∧
          store.expiresAt.getD 0 - 300 > now
       then store.accessToken else none) := by
  unfold getValidAccessToken
  rcases h with h | h <;>
    cases hta : truthy store.accessToken <;>
    cases htb : truthy store.refreshToken <;>
    by_cases h2 : store.expiresAt.getD 0 - 300 > now <;>
    simp [h, hta, htb, h2, truthy_none]

/-- Witness for C5 (amended): the stale variant of the record with no
`clientId` returns the absent result with no call. -/
theorem C5_missing_client_no_network_witness :
    ((GlobalSettings.mk none (some "sec") (some "tok") (some "ref") (some 1000) none).clientId
      = none ∨
     (GlobalSettings.mk none (some "sec") (some "tok") (some "ref") (some 1000) none).clientSecret
      = none) ∧
    ((getValidAccessToken
        (GlobalSettings.mk none (some "sec") (some "tok") (some "ref") (some 1000) none)
        100000 (Except.ok demoResponse)).calls = [] ∧
     (getValidAccessToken
        (GlobalSettings.mk none (some "sec") (some "tok") (some "ref") (some 1000) none)
        100000 (Except.ok demoResponse)).writes = [] ∧
     (getValidAccessToken
        (GlobalSettings.mk none (some "sec") (some "tok") (some "ref") (some 1000) none)
        100000 (Except.ok demoResponse)).result =
      (if truthy (GlobalSettings.mk none (some "sec") (some "tok") (some "ref") (some 1000) none).accessToken = true ∧
          truthy (GlobalSettings.mk none (some "sec") (some "tok") (some "ref") (some 1000) none).refreshToken = true ∧
          (GlobalSettings.mk none (some "sec") (some "tok") (some "ref") (some 1000) none).expiresAt.getD 0 - 300 > 100000
       then (GlobalSettings.mk none (some "sec") (some "tok") (some "ref") (some 1000) none).accessToken
       else none)) :=
  ⟨Or.inl rfl,
    C5_missing_client_no_network
      (GlobalSettings.mk none (some "sec") (some "tok") (some "ref") (some 1000) none)
      100000 (Except.ok demoResponse) (Or.inl rfl)⟩

/-- C3: every credential-store write of the modelled operations keeps the
token pair coherent. The writes of `getValidAccessToken`, `onKeyDown` and
`exchangeToken` happen only on refresh/exchange success and replace
`accessToken`, `refreshToken` and `expiresAt` together from that one
response; every write of `onDidReceiveSettings` either carries the token
pair of the record it read, unchanged, or is such an exchange-success
write. No write touches one of `accessToken`/`refreshToken` without the
other. -/
theorem C3_token_pair_written_atomically (store : GlobalSettings) (now : Int)
    (refresh exch : Except JsError TokenResponse) (ui : OAuthSettingsUI)
    (clientId clientSecret authCode : String) :
    All (fun w => ∃ tr, refresh = Except.ok tr ∧ tokensFromResponse w tr)
      (getValidAccessToken store now refresh).writes ∧
    All (fun w => ∃ tr, refresh = Except.ok tr ∧ tokensFromResponse w tr)
      (onKeyDown store refresh).writes ∧
    All (fun w => ∃ tr, exch = Except.ok tr ∧ tokensFromResponse w tr)
      (exchangeToken clientId clientSecret authCode store exch).writes ∧
    All (fun w => preservesTokens w store ∨
          ∃ tr, exch = Except.ok tr ∧ tokensFromResponse w tr)
      (onDidReceiveSettings ui store exch).writes := by
  refine ⟨?_, ?_, ?_, ?_⟩
  · unfold getValidAccessToken
    cases refresh <;>
      by_cases h1 : !truthy store.accessToken || !truthy store.refreshToken <;>
      by_cases h2 : store.expiresAt.getD 0 - 300 > now <;>
      by_cases h3 : !truthy store.clientId || !truthy store.clientSecret <;>
      simp [h1, h2, h3, All, tokensFromResponse, applyRefresh]
  · unfold onKeyDown
    dsimp only
    cases refresh <;> split <;> (try split) <;> (try split) <;>
      simp_all [All, tokensFromResponse, applyRefresh]
  · cases exch <;> simp [exchangeToken, All, tokensFromResponse]
  · unfold onDidReceiveSettings exchangeToken
    dsimp only
    cases exch <;> split <;> (try split) <;> (try split) <;> (try split) <;>
      simp_all [All, preservesTokens, tokensFromResponse]
